import Mathlib

/-!
Shallow embedding of the xndoughs-backend retention and capacity-monitoring
scheduler (src/utils/databaseManager.js) and its notification sink
(NotificationManager).  Timestamps are modelled as integers counting
milliseconds; the document store is a list of reservation records; each
awaited store operation may be scheduled to fail, mirroring the try/catch
structure of the source.
-/

namespace XnDoughs

/-- Reservation status enum from src/models/reservation.js. -/
inductive Status
  | pending
  | confirmed
  | cancelled
deriving DecidableEq

/-- The fields of a reservation relevant to retention:
identity, status and creation timestamp (ms). -/
structure Reservation where
  rid : Nat
  status : Status
  createdAt : Int
deriving DecidableEq

/-- A notification dispatched through NotificationManager.notify. -/
structure Notif where
  subject : String
  message : String
  isError : Bool
deriving DecidableEq

def msPerHour : Int := 60 * 60 * 1000

def msPerDay : Int := 24 * 60 * 60 * 1000

/-- First deleteMany filter in cleanupOldReservations:
createdAt < thirtyDaysAgo and status in [confirmed, cancelled]. -/
def oldCompleted (now : Int) (r : Reservation) : Bool :=
  decide (r.createdAt < now - 30 * msPerDay) &&
    (r.status == .confirmed || r.status == .cancelled)

/-- Second deleteMany filter in cleanupOldReservations:
createdAt < oneDayAgo and status pending. -/
def abandonedPending (now : Int) (r : Reservation) : Bool :=
  decide (r.createdAt < now - 24 * msPerHour) && r.status == .pending

/-- Which awaited store operation inside the cleanup try block fails,
with the error message it throws. -/
inductive CleanupErr
  | firstDelete (msg : String)
  | secondDelete (msg : String)
deriving DecidableEq

/-- The try block of cleanupOldReservations: two sequential deleteMany
calls; an error carries the message and the store state already
committed when it was thrown. -/
def cleanupTry (err : Option CleanupErr) (now : Int) (store : List Reservation) :
    Except (String × List Reservation) (List Reservation × Nat × Nat) :=
  match err with
  | some (.firstDelete m) => .error (m, store)
  | some (.secondDelete m) =>
      .error (m, store.filter (fun r => ! oldCompleted now r))
  | none =>
      let store1 := store.filter (fun r => ! oldCompleted now r)
      let c1 := store.countP (fun r => oldCompleted now r)
      let store2 := store1.filter (fun r => ! abandonedPending now r)
      let c2 := store1.countP (fun r => abandonedPending now r)
      .ok (store2, c1, c2)

/-- Result of a cleanup run: the surviving store, the returned count,
and the notifications emitted. -/
structure CleanupResult where
  store : List Reservation
  totalDeleted : Nat
  notifs : List Notif
deriving DecidableEq

/-- cleanupOldReservations: runs the try block; on success notifies
only when totalDeleted > 0 and returns the sum of the two counts;
on error notifies Cleanup Failed with the message and returns 0. -/
def cleanupOldReservations (err : Option CleanupErr) (now : Int)
    (store : List Reservation) : CleanupResult :=
  match cleanupTry err now store with
  | .ok (store2, c1, c2) =>
      let total := c1 + c2
      { store := store2
        totalDeleted := total
        notifs :=
          if total > 0 then
            [⟨"Cleanup Completed",
              s!"Cleaned up {c1} old reservations and {c2} abandoned pending reservations.",
              false⟩]
          else [] }
  | .error (m, s) =>
      { store := s
        totalDeleted := 0
        notifs := [⟨"Cleanup Failed", "Error during cleanup: " ++ m, true⟩] }

/-- An archive record: the copied reservation fields plus provenance
metadata added by archiveReservations. -/
structure ArchiveRecord where
  original : Reservation
  archivedAt : Int
  archiveReason : String
  originalCollection : String
deriving DecidableEq

/-- Archival selection filter: createdAt < sixtyDaysAgo, any status. -/
def archivable (now : Int) (r : Reservation) : Bool :=
  decide (r.createdAt < now - 60 * msPerDay)

/-- The provenance-extended copy inserted into the archive store. -/
def mkArchiveRecord (now : Int) (r : Reservation) : ArchiveRecord :=
  { original := r
    archivedAt := now
    archiveReason := "age"
    originalCollection := "reservations" }

/-- Which awaited store operation inside the archival try block fails:
the find, obtaining the archive model, the insertMany, or the final
deleteMany. -/
inductive ArchiveErr
  | find (msg : String)
  | getModel (msg : String)
  | insertMany (msg : String)
  | deleteMany (msg : String)
deriving DecidableEq

/-- The try block of archiveReservations: find the records older than 60
days; if none, return 0 at once (the later operations never run); else
insert provenance-extended copies into the archive store and delete the
originals from the primary store by identifier.  An error carries the
message and the (store, archive) state committed when it was thrown. -/
def archiveTry (err : Option ArchiveErr) (now : Int)
    (store : List Reservation) (archive : List ArchiveRecord) :
    Except (String × List Reservation × List ArchiveRecord)
      (List Reservation × List ArchiveRecord × Nat) :=
  match err with
  | some (.find m) => .error (m, store, archive)
  | _ =>
    let sel := store.filter (fun r => archivable now r)
    if sel.isEmpty then .ok (store, archive, 0)
    else
      match err with
      | some (.getModel m) => .error (m, store, archive)
      | some (.insertMany m) => .error (m, store, archive)
      | some (.deleteMany m) =>
          .error (m, store, archive ++ sel.map (fun r => mkArchiveRecord now r))
      | _ =>
          let ids := sel.map (fun r => r.rid)
          .ok (store.filter (fun r => ! ids.contains r.rid),
               archive ++ sel.map (fun r => mkArchiveRecord now r),
               sel.length)

/-- Result of an archival run: the surviving primary store, the archive
store, the returned count, and the notifications emitted. -/
structure ArchiveResult where
  store : List Reservation
  archive : List ArchiveRecord
  count : Nat
  notifs : List Notif
deriving DecidableEq

/-- archiveReservations: runs the try block; on success notifies
Archiving Completed only when records were archived and returns their
count; on error notifies Archiving Failed with the message and
returns 0. -/
def archiveReservations (err : Option ArchiveErr) (now : Int)
    (store : List Reservation) (archive : List ArchiveRecord) : ArchiveResult :=
  match archiveTry err now store archive with
  | .ok (store2, archive2, n) =>
      { store := store2
        archive := archive2
        count := n
        notifs :=
          if n > 0 then
            [⟨"Archiving Completed",
              s!"Archived {n} old reservations successfully.", false⟩]
          else [] }
  | .error (m, s, a) =>
      { store := s
        archive := a
        count := 0
        notifs := [⟨"Archiving Failed", "Error during archiving: " ++ m, true⟩] }

/-- Raw byte counters reported by the document store (db.stats()). -/
structure RawStats where
  dataSize : Nat
  storageSize : Nat
  indexSize : Nat
deriving DecidableEq

/-- JavaScript Number.prototype.toFixed rounding of the scaled value:
nearest integer, ties towards the larger integer. -/
def roundHalfUp (x : ℚ) : ℤ := ⌊x + 1 / 2⌋

/-- The rational value denoted by x.toFixed(d): x rounded to d decimal
places, ties upward. -/
def toFixedQ (d : Nat) (x : ℚ) : ℚ := (roundHalfUp (x * 10 ^ d) : ℚ) / 10 ^ d

/-- The capacity snapshot getStats builds: byte counters converted to MB
with two-decimal rounding, free space against the fixed 512 MB quota,
and usage percentage with one-decimal rounding. -/
structure Stats where
  sizeInMB : ℚ
  storageInMB : ℚ
  indexSizeInMB : ℚ
  freeStorageMB : ℚ
  usagePercentage : ℚ
deriving DecidableEq

/-- getStats: none models the store read throwing, in which case the
catch block returns null. -/
def getStats (raw : Option RawStats) : Option Stats :=
  raw.map fun s =>
    { sizeInMB := toFixedQ 2 ((s.dataSize : ℚ) / (1024 * 1024))
      storageInMB := toFixedQ 2 ((s.storageSize : ℚ) / (1024 * 1024))
      indexSizeInMB := toFixedQ 2 ((s.indexSize : ℚ) / (1024 * 1024))
      freeStorageMB := toFixedQ 2 (512 - (s.storageSize : ℚ) / (1024 * 1024))
      usagePercentage := toFixedQ 1 ((s.storageSize : ℚ) / (1024 * 1024) / 512 * 100) }

def WARNING_THRESHOLD : ℚ := 350

def CRITICAL_THRESHOLD : ℚ := 400

def EMERGENCY_THRESHOLD : ℚ := 450

/-- The storage-alert message template shared by the three tiers. -/
def healthMessage (s : Stats) : String :=
  s!"Database Storage Alert: current usage {s.storageInMB}MB of 512MB, " ++
  s!"usage percentage {s.usagePercentage}, free space {s.freeStorageMB}MB, " ++
  s!"index size {s.indexSizeInMB}MB."

/-- The value monitorHealth returns when stats are available: the
snapshot spread together with the three alert flags. -/
structure HealthReturn where
  stats : Stats
  warning : Bool
  critical : Bool
  emergency : Bool
deriving DecidableEq

/-- Result of a monitorHealth run: the returned value (none models
returning undefined), the notifications emitted (its own alert plus any
emitted by a triggered cleanup or archival), and the resulting stores. -/
structure MonitorResult where
  result : Option HealthReturn
  notifs : List Notif
  store : List Reservation
  archive : List ArchiveRecord
deriving DecidableEq

/-- monitorHealth: fetch stats, return undefined if unavailable;
otherwise compare parseFloat(storageInMB) against the three thresholds,
emergency checked first, then critical, then warning; the emergency
branch awaits cleanupOldReservations then archiveReservations before
returning; the returned value carries all three flags. -/
def monitorHealth (raw : Option RawStats) (cErr : Option CleanupErr)
    (aErr : Option ArchiveErr) (now : Int) (store : List Reservation)
    (archive : List ArchiveRecord) : MonitorResult :=
  match getStats raw with
  | none => { result := none, notifs := [], store := store, archive := archive }
  | some stats =>
      let storageUsed := stats.storageInMB
      let step :
          List Notif × List Reservation × List ArchiveRecord :=
        if storageUsed > EMERGENCY_THRESHOLD then
          let c := cleanupOldReservations cErr now store
          let a := archiveReservations aErr now c.store archive
          ([⟨"EMERGENCY: Database Near Capacity",
             healthMessage stats ++ " URGENT: Database is nearing free tier limit. Emergency cleanup initiated.",
             true⟩] ++ c.notifs ++ a.notifs, a.store, a.archive)
        else if storageUsed > CRITICAL_THRESHOLD then
          ([⟨"CRITICAL: High Database Usage",
             healthMessage stats ++ " Action Required: Please review and clean up unnecessary data.",
             true⟩], store, archive)
        else if storageUsed > WARNING_THRESHOLD then
          ([⟨"WARNING: Database Usage Alert",
             healthMessage stats ++ " Consider cleaning up old data to prevent reaching limits.",
             false⟩], store, archive)
        else ([], store, archive)
      { result := some
          { stats := stats
            warning := decide (storageUsed > WARNING_THRESHOLD)
            critical := decide (storageUsed > CRITICAL_THRESHOLD)
            emergency := decide (storageUsed > EMERGENCY_THRESHOLD) }
        notifs := step.1
        store := step.2.1
        archive := step.2.2 }

/-- Outcome of one delivery channel attempt: the underlying await
resolves, or rejects with a message (for the webhook this covers both a
rejected fetch and a non-ok response status). -/
inductive ChannelOutcome
  | success
  | failure (msg : String)
deriving DecidableEq

/-- Observable effects of the notification sink. -/
inductive Event
  | emailInvoked
  | emailSent (subject : String) (message : String)
  | emailErrorLogged (msg : String)
  | webhookInvoked
  | fetchPost (url : String) (title : String) (message : String) (color : Nat)
  | webhookErrorLogged (msg : String)
deriving DecidableEq

/-- The try block of sendEmail: the sendMail await either resolves,
having sent the branded alert mail, or rejects. -/
def sendEmailTry (subject message : String) (o : ChannelOutcome) :
    Except String (List Event) :=
  match o with
  | .success => .ok [.emailSent ("XNDoughs Alert: " ++ subject) message]
  | .failure m => .error m

/-- sendEmail: catches any error from its try block and only logs it, so
the returned promise always resolves. -/
def sendEmail (subject message : String) (o : ChannelOutcome) :
    Except String (List Event) :=
  match sendEmailTry subject message o with
  | .ok t => .ok (.emailInvoked :: t)
  | .error m => .ok [.emailInvoked, .emailErrorLogged m]

/-- The try block of sendDiscordWebhook: returns at once when no webhook
URL is configured; otherwise posts the embed (color 15158332 when
isError, 3066993 otherwise); a rejected fetch or a non-ok response
yields an error, carrying the events already performed. -/
def sendDiscordWebhookTry (url : Option String) (title message : String)
    (isError : Bool) (o : ChannelOutcome) :
    Except (String × List Event) (List Event) :=
  match url with
  | none => .ok []
  | some u =>
      let color : Nat := if isError then 15158332 else 3066993
      match o with
      | .success => .ok [.fetchPost u title message color]
      | .failure m => .error (m, [.fetchPost u title message color])

/-- sendDiscordWebhook: catches any error from its try block and only
logs it, so the returned promise always resolves. -/
def sendDiscordWebhook (url : Option String) (title message : String)
    (isError : Bool) (o : ChannelOutcome) : Except String (List Event) :=
  match sendDiscordWebhookTry url title message isError o with
  | .ok t => .ok (.webhookInvoked :: t)
  | .error (m, t) => .ok (.webhookInvoked :: (t ++ [.webhookErrorLogged m]))

/-- Promise.all over the two channel promises: resolves with both traces
once both have settled; rejects if either rejects. -/
def promiseAll2 (a b : Except String (List Event)) : Except String (List Event) :=
  match a, b with
  | .ok ta, .ok tb => .ok (ta ++ tb)
  | .error m, _ => .error m
  | .ok _, .error m => .error m

/-- NotificationManager.notify: dispatches to both channels and awaits
both through Promise.all. -/
def notify (url : Option String) (subject message : String) (isError : Bool)
    (eo wo : ChannelOutcome) : Except String (List Event) :=
  promiseAll2 (sendEmail subject message eo)
    (sendDiscordWebhook url subject message isError wo)

/-! ### Helper lemmas about cleanup -/

/-- A pending reservation never matches the confirmed/cancelled rule. -/
lemma abandoned_not_old (now : Int) (r : Reservation)
    (h : abandonedPending now r = true) : oldCompleted now r = false := by
  unfold abandonedPending oldCompleted at *
  cases hs : r.status <;> simp_all

/-- On the error-free path the surviving store is the original filtered
by the disjunction of the two deletion rules. -/
lemma cleanup_store_eq (now : Int) (store : List Reservation) :
    (cleanupOldReservations none now store).store
      = store.filter (fun r => !(oldCompleted now r || abandonedPending now r)) := by
  simp only [cleanupOldReservations, cleanupTry, List.filter_filter]
  apply List.filter_congr
  intro r _
  cases h1 : oldCompleted now r <;> cases h2 : abandonedPending now r <;> rfl

/-- On the error-free path the returned total is the sum of the two
rule-match counts, both taken over the original store. -/
lemma cleanup_total_eq (now : Int) (store : List Reservation) :
    (cleanupOldReservations none now store).totalDeleted
      = store.countP (fun r => oldCompleted now r)
        + store.countP (fun r => abandonedPending now r) := by
  simp only [cleanupOldReservations, cleanupTry]
  congr 1
  rw [List.countP_filter]
  apply List.countP_congr
  intro r _
  cases h2 : abandonedPending now r
  · simp
  · simp [abandoned_not_old now r h2]

/-- The two deletion rules are disjoint, so their counts add up to the
count of the disjunction. -/
lemma countP_or_rules (now : Int) (store : List Reservation) :
    store.countP (fun r => oldCompleted now r || abandonedPending now r)
      = store.countP (fun r => oldCompleted now r)
        + store.countP (fun r => abandonedPending now r) := by
  induction store with
  | nil => simp
  | cons a t ih =>
      cases h2 : abandonedPending now a
      · cases h1 : oldCompleted now a <;>
          (simp [List.countP_cons, h1, h2, ih]; try omega)
      · have h1 := abandoned_not_old now a h2
        simp [List.countP_cons, h1, h2, ih]
        try omega

/-- On the error-free path the notifications are a single Cleanup
Completed notification when something was deleted, and nothing
otherwise. -/
lemma cleanup_notifs_eq (now : Int) (store : List Reservation) :
    (cleanupOldReservations none now store).notifs
      = (if 0 < (cleanupOldReservations none now store).totalDeleted then
          [⟨"Cleanup Completed",
            s!"Cleaned up {store.countP (fun r => oldCompleted now r)} old reservations and {(store.filter (fun r => ! oldCompleted now r)).countP (fun r => abandonedPending now r)} abandoned pending reservations.",
            false⟩]
        else []) := by
  simp only [cleanupOldReservations, cleanupTry]

/-! ### Claim theorems -/

/-- C1: on an error-free run, cleanup deletes a reservation present in
the store if and only if it is confirmed/cancelled and strictly older
than 30 days, or pending and strictly older than 24 hours; a record
whose createdAt equals either boundary instant is exempt; and the
returned total is the sum of the two deletion counts. -/
theorem cleanup_deletes_iff (now : Int) (store : List Reservation)
    (r : Reservation) (hr : r ∈ store) :
    (r ∉ (cleanupOldReservations none now store).store ↔
       (oldCompleted now r || abandonedPending now r) = true) ∧
    ((r.status = Status.confirmed ∨ r.status = Status.cancelled) →
       r.createdAt = now - 30 * msPerDay →
       r ∈ (cleanupOldReservations none now store).store) ∧
    (r.status = Status.pending → r.createdAt = now - 24 * msPerHour →
       r ∈ (cleanupOldReservations none now store).store) ∧
    (cleanupOldReservations none now store).totalDeleted
      = store.countP (fun x => oldCompleted now x)
        + store.countP (fun x => abandonedPending now x) := by
  refine ⟨?_, ?_, ?_, cleanup_total_eq now store⟩
  · rw [cleanup_store_eq]
    simp only [List.mem_filter, hr, true_and, not_and, Bool.not_eq_true]
    cases h1 : oldCompleted now r <;> cases h2 : abandonedPending now r <;> simp
  · rintro hs hc
    rw [cleanup_store_eq]
    rw [List.mem_filter]
    refine ⟨hr, ?_⟩
    have hold : oldCompleted now r = false := by
      unfold oldCompleted
      simp [hc]
    have hab : abandonedPending now r = false := by
      unfold abandonedPending
      rcases hs with hs | hs <;> simp [hs]
    simp [hold, hab]
  · intro hs hc
    rw [cleanup_store_eq]
    rw [List.mem_filter]
    refine ⟨hr, ?_⟩
    have hold : oldCompleted now r = false := by
      unfold oldCompleted
      simp [hs]
    have hab : abandonedPending now r = false := by
      unfold abandonedPending
      simp [hc]
    simp [hold, hab]

/-- Witness for C1: a confirmed reservation 40 days old is deleted. -/
theorem cleanup_deletes_iff_witness :
    (⟨1, Status.confirmed, 0⟩ : Reservation)
      ∉ (cleanupOldReservations none (40 * msPerDay) [⟨1, Status.confirmed, 0⟩]).store :=
  ((cleanup_deletes_iff (40 * msPerDay) [⟨1, Status.confirmed, 0⟩]
      ⟨1, Status.confirmed, 0⟩ (by decide)).1).mpr (by decide)

/-- C4 as stated: for confirmed/cancelled reservations, age at least 30
days means removed and age under 30 days means kept; for pending
reservations, age at least 24 hours means removed. -/
def claimC4 : Prop :=
  ∀ (now : Int) (store : List Reservation) (r : Reservation), r ∈ store →
    (((r.status = Status.confirmed ∨ r.status = Status.cancelled) →
        ((30 * msPerDay ≤ now - r.createdAt →
            r ∉ (cleanupOldReservations none now store).store) ∧
         (now - r.createdAt < 30 * msPerDay →
            r ∈ (cleanupOldReservations none now store).store))) ∧
     (r.status = Status.pending → 24 * msPerHour ≤ now - r.createdAt →
        r ∉ (cleanupOldReservations none now store).store))

/-- C4 counterexample: a confirmed reservation whose age is exactly 30
days (createdAt equals the cutoff) is kept by cleanup, because the
comparison is strict; so the claim with an inclusive age bound fails. -/
theorem claimC4_cex : ¬ claimC4 := by
  intro h
  exact ((h (30 * msPerDay) [⟨0, Status.confirmed, 0⟩] ⟨0, Status.confirmed, 0⟩
      (by decide)).1 (Or.inl rfl)).1 (by decide) (by decide)

/-- C4 amended: for confirmed/cancelled reservations, age strictly over
30 days means removed and age at most 30 days means kept; for pending
reservations, age strictly over 24 hours means removed regardless of
the 30-day rule. -/
theorem cleanup_age_strict (now : Int) (store : List Reservation)
    (r : Reservation) (hr : r ∈ store) :
    (((r.status = Status.confirmed ∨ r.status = Status.cancelled) →
        ((30 * msPerDay < now - r.createdAt →
            r ∉ (cleanupOldReservations none now store).store) ∧
         (now - r.createdAt ≤ 30 * msPerDay →
            r ∈ (cleanupOldReservations none now store).store))) ∧
     (r.status = Status.pending → 24 * msPerHour < now - r.createdAt →
        r ∉ (cleanupOldReservations none now store).store)) := by
  have hmem := (cleanup_deletes_iff now store r hr).1
  constructor
  · rintro hs
    constructor
    · intro hage
      apply hmem.mpr
      have : r.createdAt < now - 30 * msPerDay := by omega
      unfold oldCompleted
      rcases hs with hs | hs <;> simp [hs, this]
    · intro hage
      rw [cleanup_store_eq, List.mem_filter]
      refine ⟨hr, ?_⟩
      have hold : oldCompleted now r = false := by
        unfold oldCompleted
        have : ¬ (r.createdAt < now - 30 * msPerDay) := by omega
        simp [this]
      have hab : abandonedPending now r = false := by
        unfold abandonedPending
        rcases hs with hs | hs <;> simp [hs]
      simp [hold, hab]
  · intro hs hage
    apply hmem.mpr
    have : r.createdAt < now - 24 * msPerHour := by omega
    unfold abandonedPending
    simp [hs, this]

/-- Witness for the amended C4: a pending reservation 25 hours old is
deleted. -/
theorem cleanup_age_strict_witness :
    (⟨7, Status.pending, 0⟩ : Reservation)
      ∉ (cleanupOldReservations none (25 * msPerHour) [⟨7, Status.pending, 0⟩]).store :=
  (cleanup_age_strict (25 * msPerHour) [⟨7, Status.pending, 0⟩]
      ⟨7, Status.pending, 0⟩ (by decide)).2 rfl (by decide)

/-- C5 as stated: with reservations aged 31 days (confirmed), 10 hours
(pending) and 10 hours (confirmed) in the store, cleanup deletes the
first two and keeps the third. -/
def claimC5 : Prop :=
  ∀ now : Int,
    (⟨1, Status.confirmed, now - 31 * msPerDay⟩ : Reservation)
        ∉ (cleanupOldReservations none now
            [⟨1, Status.confirmed, now - 31 * msPerDay⟩,
             ⟨2, Status.pending, now - 10 * msPerHour⟩,
             ⟨3, Status.confirmed, now - 10 * msPerHour⟩]).store ∧
    (⟨2, Status.pending, now - 10 * msPerHour⟩ : Reservation)
        ∉ (cleanupOldReservations none now
            [⟨1, Status.confirmed, now - 31 * msPerDay⟩,
             ⟨2, Status.pending, now - 10 * msPerHour⟩,
             ⟨3, Status.confirmed, now - 10 * msPerHour⟩]).store ∧
    (⟨3, Status.confirmed, now - 10 * msPerHour⟩ : Reservation)
        ∈ (cleanupOldReservations none now
            [⟨1, Status.confirmed, now - 31 * msPerDay⟩,
             ⟨2, Status.pending, now - 10 * msPerHour⟩,
             ⟨3, Status.confirmed, now - 10 * msPerHour⟩]).store

/-- C5 counterexample: the 10-hour-old pending reservation is retained
by cleanup (the pending rule only fires past 24 hours), so the claim
that it is deleted fails at now = 0. -/
theorem claimC5_cex : ¬ claimC5 := by
  intro h
  exact (h 0).2.1 (by decide)

/-- C5 amended: the 31-day-old confirmed reservation is deleted, the
10-hour-old pending reservation is retained, and the 10-hour-old
confirmed reservation is retained. -/
theorem cleanup_scenario (now : Int) :
    (⟨1, Status.confirmed, now - 31 * msPerDay⟩ : Reservation)
        ∉ (cleanupOldReservations none now
            [⟨1, Status.confirmed, now - 31 * msPerDay⟩,
             ⟨2, Status.pending, now - 10 * msPerHour⟩,
             ⟨3, Status.confirmed, now - 10 * msPerHour⟩]).store ∧
    (⟨2, Status.pending, now - 10 * msPerHour⟩ : Reservation)
        ∈ (cleanupOldReservations none now
            [⟨1, Status.confirmed, now - 31 * msPerDay⟩,
             ⟨2, Status.pending, now - 10 * msPerHour⟩,
             ⟨3, Status.confirmed, now - 10 * msPerHour⟩]).store ∧
    (⟨3, Status.confirmed, now - 10 * msPerHour⟩ : Reservation)
        ∈ (cleanupOldReservations none now
            [⟨1, Status.confirmed, now - 31 * msPerDay⟩,
             ⟨2, Status.pending, now - 10 * msPerHour⟩,
             ⟨3, Status.confirmed, now - 10 * msPerHour⟩]).store := by
  rw [cleanup_store_eq]
  have e1 : oldCompleted now ⟨1, Status.confirmed, now - 31 * msPerDay⟩ = true := by
    unfold oldCompleted msPerDay
    have : now - 31 * (24 * 60 * 60 * 1000) < now - 30 * (24 * 60 * 60 * 1000) := by omega
    simp [this]
  have e2o : oldCompleted now ⟨2, Status.pending, now - 10 * msPerHour⟩ = false := by
    unfold oldCompleted
    simp
  have e2a : abandonedPending now ⟨2, Status.pending, now - 10 * msPerHour⟩ = false := by
    unfold abandonedPending msPerHour
    have : ¬ (now - 10 * (60 * 60 * 1000) < now - 24 * (60 * 60 * 1000)) := by omega
    simp [this]
  have e3o : oldCompleted now ⟨3, Status.confirmed, now - 10 * msPerHour⟩ = false := by
    unfold oldCompleted msPerDay msPerHour
    have : ¬ (now - 10 * (60 * 60 * 1000) < now - 30 * (24 * 60 * 60 * 1000)) := by omega
    simp [this]
  have e3a : abandonedPending now ⟨3, Status.confirmed, now - 10 * msPerHour⟩ = false := by
    unfold abandonedPending
    simp
  refine ⟨?_, ?_, ?_⟩
  · simp [List.mem_filter, e1]
  · simp [List.mem_filter, e2o, e2a]
  · simp [List.mem_filter, e3o, e3a]

/-- Witness for the amended C5 at a concrete clock instant. -/
theorem cleanup_scenario_witness :
    (⟨2, Status.pending, (100 * msPerDay : Int) - 10 * msPerHour⟩ : Reservation)
        ∈ (cleanupOldReservations none (100 * msPerDay)
            [⟨1, Status.confirmed, (100 * msPerDay : Int) - 31 * msPerDay⟩,
             ⟨2, Status.pending, (100 * msPerDay : Int) - 10 * msPerHour⟩,
             ⟨3, Status.confirmed, (100 * msPerDay : Int) - 10 * msPerHour⟩]).store :=
  (cleanup_scenario (100 * msPerDay)).2.1

/-- C10: on an error-free run the Cleanup Completed notification is
emitted if and only if the returned total is positive; when no record
matches either deletion rule, cleanup returns 0 and emits no
notification at all. -/
theorem cleanup_notify_iff (now : Int) (store : List Reservation) :
    ((∃ n ∈ (cleanupOldReservations none now store).notifs,
        n.subject = "Cleanup Completed") ↔
      0 < (cleanupOldReservations none now store).totalDeleted) ∧
    (store.countP (fun r => oldCompleted now r || abandonedPending now r) = 0 →
      (cleanupOldReservations none now store).totalDeleted = 0 ∧
      (cleanupOldReservations none now store).notifs = []) := by
  have htot : (cleanupOldReservations none now store).totalDeleted
      = store.countP (fun r => oldCompleted now r)
        + store.countP (fun r => abandonedPending now r) :=
    cleanup_total_eq now store
  constructor
  · rw [cleanup_notifs_eq]
    by_cases hpos : 0 < (cleanupOldReservations none now store).totalDeleted
    · simp [hpos]
    · simp [hpos]
  · intro hzero
    have : (cleanupOldReservations none now store).totalDeleted = 0 := by
      rw [htot, ← countP_or_rules, hzero]
    refine ⟨this, ?_⟩
    rw [cleanup_notifs_eq, this]
    simp

/-- Witness for C10: one matching record makes the notification fire. -/
theorem cleanup_notify_iff_witness :
    ∃ n ∈ (cleanupOldReservations none (40 * msPerDay)
        [⟨9, Status.cancelled, 0⟩]).notifs, n.subject = "Cleanup Completed" :=
  (cleanup_notify_iff (40 * msPerDay) [⟨9, Status.cancelled, 0⟩]).1.mpr (by decide)

/-- C2: on an error-free run with distinct identifiers, archival selects
exactly the reservations older than 60 days regardless of status,
appends to the archive store one provenance-extended copy per selected
original (archivedAt timestamp, archiveReason "age", originalCollection
tag), removes from the primary store exactly the selected originals by
identifier, and returns the selected count — 0 when nothing matched. -/
theorem archive_spec (now : Int) (store : List Reservation)
    (archive : List ArchiveRecord)
    (hids : (store.map (fun r => r.rid)).Nodup) :
    (archiveReservations none now store archive).archive
        = archive ++ (store.filter (fun r => archivable now r)).map
            (fun r => mkArchiveRecord now r) ∧
    (archiveReservations none now store archive).count
        = (store.filter (fun r => archivable now r)).length ∧
    (∀ r ∈ store,
       (r ∈ (archiveReservations none now store archive).store ↔
          ¬ archivable now r = true)) ∧
    (store.filter (fun r => archivable now r) = [] →
       (archiveReservations none now store archive).count = 0) := by
  have hcontains : ∀ r ∈ store,
      (((store.filter (fun x => archivable now x)).map
          (fun x => x.rid)).contains r.rid = true ↔ archivable now r = true) := by
    intro r hrmem
    rw [show (((store.filter (fun x => archivable now x)).map
        (fun x => x.rid)).contains r.rid)
      = ((store.filter (fun x => archivable now x)).map
        (fun x => x.rid)).elem r.rid from rfl]
    rw [List.elem_iff]
    constructor
    · intro hb
      rcases List.mem_map.mp hb with ⟨x, hxsel, hxid⟩
      rcases List.mem_filter.mp hxsel with ⟨hxstore, hxarch⟩
      have hxr : x = r :=
        List.inj_on_of_nodup_map hids hxstore hrmem hxid
      rwa [hxr] at hxarch
    · intro harch
      exact List.mem_map.mpr ⟨r, List.mem_filter.mpr ⟨hrmem, harch⟩, rfl⟩
  by_cases hempty : (store.filter (fun r => archivable now r)).isEmpty
  · have he : store.filter (fun r => archivable now r) = [] :=
      List.isEmpty_iff.mp hempty
    have hres : archiveReservations none now store archive
        = { store := store, archive := archive, count := 0, notifs := [] } := by
      simp [archiveReservations, archiveTry, hempty]
    refine ⟨by simp [hres, he], by simp [hres, he], ?_, fun _ => by simp [hres]⟩
    intro r hrmem
    have harch : archivable now r = false := by
      cases h : archivable now r
      · rfl
      · exact absurd (List.eq_nil_iff_forall_not_mem.mp he r)
          (by simp [List.mem_filter, hrmem, h])
    simp [hres, hrmem, harch]
  · have hres : archiveReservations none now store archive
      = { store := store.filter (fun r =>
              ! ((store.filter (fun x => archivable now x)).map
                  (fun x => x.rid)).contains r.rid)
          archive := archive ++ (store.filter (fun r => archivable now r)).map
              (fun r => mkArchiveRecord now r)
          count := (store.filter (fun r => archivable now r)).length
          notifs := if (store.filter (fun r => archivable now r)).length > 0 then
              [⟨"Archiving Completed",
                s!"Archived {(store.filter (fun r => archivable now r)).length} old reservations successfully.",
                false⟩]
            else [] } := by
      simp [archiveReservations, archiveTry, hempty]
    refine ⟨by simp [hres], by simp [hres], ?_, ?_⟩
    · intro r hrmem
      rw [hres]
      simp only [List.mem_filter, hrmem, true_and, Bool.not_eq_eq_eq_not,
        Bool.not_true]
      constructor
      · intro hkeep harch
        have := (hcontains r hrmem).mpr harch
        rw [this] at hkeep
        cases hkeep
      · intro hnarch
        cases hc : ((store.filter (fun x => archivable now x)).map
            (fun x => x.rid)).contains r.rid
        · rfl
        · exact absurd ((hcontains r hrmem).mp hc) hnarch
    · intro he
      rw [hres, he]
      simp

/-- Witness for C2: a 70-day-old pending reservation is archived while a
fresh confirmed one stays; the count is 1. -/
theorem archive_spec_witness :
    (archiveReservations none (70 * msPerDay)
        [⟨1, Status.pending, 0⟩, ⟨2, Status.confirmed, 70 * msPerDay⟩] []).count = 1 :=
  ((archive_spec (70 * msPerDay)
      [⟨1, Status.pending, 0⟩, ⟨2, Status.confirmed, 70 * msPerDay⟩] []
      (by decide)).2.1).trans (by decide)

/-- C6: getStats converts the byte counters to megabytes with
two-decimal rounding, computes free space as 512 minus the storage
megabytes (two decimals) and the usage percentage as storage megabytes
over 512 times 100 (one decimal), returns null on read failure, and on
a 200 MB storage size reports a usage percentage of 39.1. -/
theorem getStats_spec (raw : RawStats) :
    getStats none = none ∧
    getStats (some raw) = some
      { sizeInMB := toFixedQ 2 ((raw.dataSize : ℚ) / (1024 * 1024))
        storageInMB := toFixedQ 2 ((raw.storageSize : ℚ) / (1024 * 1024))
        indexSizeInMB := toFixedQ 2 ((raw.indexSize : ℚ) / (1024 * 1024))
        freeStorageMB := toFixedQ 2 (512 - (raw.storageSize : ℚ) / (1024 * 1024))
        usagePercentage :=
          toFixedQ 1 ((raw.storageSize : ℚ) / (1024 * 1024) / 512 * 100) } ∧
    (getStats (some ⟨0, 200 * 1024 * 1024, 0⟩)).map (fun s => s.usagePercentage)
      = some (391 / 10) := by
  refine ⟨rfl, rfl, ?_⟩
  norm_num [getStats, toFixedQ, roundHalfUp]

/-- C7: whenever a store operation raised inside the cleanup or the
archival try block, the operation returns 0 and emits an error
notification whose message contains the thrown message; the error is
swallowed (both embedded functions are total and return a plain
result). -/
theorem store_error_swallowed :
    (∀ (err : Option CleanupErr) (now : Int) (store st : List Reservation)
        (m : String),
       cleanupTry err now store = .error (m, st) →
         (cleanupOldReservations err now store).totalDeleted = 0 ∧
         (∃ n ∈ (cleanupOldReservations err now store).notifs,
            n.isError = true ∧ n.message = "Error during cleanup: " ++ m)) ∧
    (∀ (err : Option ArchiveErr) (now : Int) (store st : List Reservation)
        (archive ar : List ArchiveRecord) (m : String),
       archiveTry err now store archive = .error (m, st, ar) →
         (archiveReservations err now store archive).count = 0 ∧
         (∃ n ∈ (archiveReservations err now store archive).notifs,
            n.isError = true ∧ n.message = "Error during archiving: " ++ m)) := by
  constructor
  · intro err now store st m herr
    unfold cleanupOldReservations
    rw [herr]
    exact ⟨rfl, ⟨"Cleanup Failed", "Error during cleanup: " ++ m, true⟩,
      List.mem_singleton.mpr rfl, rfl, rfl⟩
  · intro err now store st archive ar m herr
    unfold archiveReservations
    rw [herr]
    exact ⟨rfl, ⟨"Archiving Failed", "Error during archiving: " ++ m, true⟩,
      List.mem_singleton.mpr rfl, rfl, rfl⟩

/-- Witness for C7: a failing first deleteMany makes cleanup return 0
with the failure notification. -/
theorem store_error_swallowed_witness :
    (cleanupOldReservations (some (.firstDelete "boom")) 0 []).totalDeleted = 0 ∧
    (∃ n ∈ (cleanupOldReservations (some (.firstDelete "boom")) 0 []).notifs,
       n.isError = true ∧ n.message = "Error during cleanup: " ++ "boom") :=
  store_error_swallowed.1 (some (.firstDelete "boom")) 0 [] [] "boom" rfl

/-- C8: for every input and every outcome of the two channels, notify
awaits both channel promises through Promise.all; each channel promise
resolves (each channel swallows its own failure), so the combined
promise resolves with both traces and never rejects, and both channels
were invoked. -/
theorem notify_settles_both (url : Option String) (subject message : String)
    (isError : Bool) (eo wo : ChannelOutcome) :
    ∃ te tw, sendEmail subject message eo = .ok te ∧
      sendDiscordWebhook url subject message isError wo = .ok tw ∧
      notify url subject message isError eo wo = .ok (te ++ tw) ∧
      Event.emailInvoked ∈ te ∧ Event.webhookInvoked ∈ tw := by
  cases eo <;> cases wo <;> cases url <;>
    simp [notify, promiseAll2, sendEmail, sendEmailTry, sendDiscordWebhook,
      sendDiscordWebhookTry]

/-- C9: with no webhook URL configured, sendDiscordWebhook resolves for
every title, message, isError flag and channel outcome, and its trace
contains no fetch call. -/
theorem webhook_unconfigured_noop (title message : String) (isError : Bool)
    (o : ChannelOutcome) :
    ∃ t, sendDiscordWebhook none title message isError o = .ok t ∧
      ∀ (u ttl msg : String) (c : Nat), Event.fetchPost u ttl msg c ∉ t := by
  refine ⟨[Event.webhookInvoked], ?_, ?_⟩
  · rfl
  · intro u ttl msg c
    simp

/-- The three tier-alert subjects monitorHealth itself can emit. -/
def isAlert (n : Notif) : Bool :=
  n.subject == "EMERGENCY: Database Near Capacity" ||
  n.subject == "CRITICAL: High Database Usage" ||
  n.subject == "WARNING: Database Usage Alert"

/-- The tier alerts among a notification trace. -/
def alertsOf (ns : List Notif) : List Notif := ns.filter (fun n => isAlert n)

/-- Cleanup never emits a tier-alert subject. -/
lemma cleanup_notifs_not_alert (e : Option CleanupErr) (now : Int)
    (st : List Reservation) :
    ∀ n ∈ (cleanupOldReservations e now st).notifs, ¬ isAlert n = true := by
  intro n hn
  unfold cleanupOldReservations at hn
  cases h : cleanupTry e now st with
  | error p =>
      rw [h] at hn
      obtain ⟨m, s⟩ := p
      simp only [List.mem_singleton] at hn
      subst hn
      simp [isAlert]
  | ok p =>
      rw [h] at hn
      obtain ⟨s2, c1, c2⟩ := p
      simp only at hn
      split at hn
      · simp only [List.mem_singleton] at hn
        subst hn
        simp [isAlert]
      · cases hn

/-- Archival never emits a tier-alert subject. -/
lemma archive_notifs_not_alert (e : Option ArchiveErr) (now : Int)
    (st : List Reservation) (ar : List ArchiveRecord) :
    ∀ n ∈ (archiveReservations e now st ar).notifs, ¬ isAlert n = true := by
  intro n hn
  unfold archiveReservations at hn
  cases h : archiveTry e now st ar with
  | error p =>
      rw [h] at hn
      obtain ⟨m, s, a⟩ := p
      simp only [List.mem_singleton] at hn
      subst hn
      simp [isAlert]
  | ok p =>
      rw [h] at hn
      obtain ⟨s2, a2, k⟩ := p
      simp only at hn
      split at hn
      · simp only [List.mem_singleton] at hn
        subst hn
        simp [isAlert]
      · cases hn

/-- C3: monitorHealth returns undefined (and sends nothing) when stats
are unavailable; otherwise it returns the stats snapshot plus the three
threshold flags warning = storage > 350, critical = storage > 400,
emergency = storage > 450 (not mutually exclusive), emits at most one
tier alert, the one of the highest crossed tier (emergency checked
first, then critical, then warning), emits no alert at or below 350,
and above 450 runs cleanup and then archival on the stores before
returning. -/
theorem monitorHealth_spec (raw : RawStats) (cErr : Option CleanupErr)
    (aErr : Option ArchiveErr) (now : Int) (store : List Reservation)
    (archive : List ArchiveRecord) :
    (monitorHealth none cErr aErr now store archive).result = none ∧
    (monitorHealth none cErr aErr now store archive).notifs = [] ∧
    (∀ s : Stats, getStats (some raw) = some s →
      ((monitorHealth (some raw) cErr aErr now store archive).result
          = some { stats := s
                   warning := decide (s.storageInMB > WARNING_THRESHOLD)
                   critical := decide (s.storageInMB > CRITICAL_THRESHOLD)
                   emergency := decide (s.storageInMB > EMERGENCY_THRESHOLD) }) ∧
      (alertsOf (monitorHealth (some raw) cErr aErr now store archive).notifs).length ≤ 1 ∧
      (s.storageInMB ≤ WARNING_THRESHOLD →
         (monitorHealth (some raw) cErr aErr now store archive).notifs = []) ∧
      (s.storageInMB > EMERGENCY_THRESHOLD →
         ((alertsOf (monitorHealth (some raw) cErr aErr now store archive).notifs).map
             (fun n => n.subject) = ["EMERGENCY: Database Near Capacity"] ∧
          (monitorHealth (some raw) cErr aErr now store archive).store
            = (archiveReservations aErr now
                (cleanupOldReservations cErr now store).store archive).store ∧
          (monitorHealth (some raw) cErr aErr now store archive).archive
            = (archiveReservations aErr now
                (cleanupOldReservations cErr now store).store archive).archive)) ∧
      (s.storageInMB > CRITICAL_THRESHOLD → s.storageInMB ≤ EMERGENCY_THRESHOLD →
         ((alertsOf (monitorHealth (some raw) cErr aErr now store archive).notifs).map
             (fun n => n.subject) = ["CRITICAL: High Database Usage"] ∧
          (monitorHealth (some raw) cErr aErr now store archive).store = store ∧
          (monitorHealth (some raw) cErr aErr now store archive).archive = archive)) ∧
      (s.storageInMB > WARNING_THRESHOLD → s.storageInMB ≤ CRITICAL_THRESHOLD →
         ((alertsOf (monitorHealth (some raw) cErr aErr now store archive).notifs).map
             (fun n => n.subject) = ["WARNING: Database Usage Alert"] ∧
          (monitorHealth (some raw) cErr aErr now store archive).store = store ∧
          (monitorHealth (some raw) cErr aErr now store archive).archive = archive))) := by
  refine ⟨rfl, rfl, ?_⟩
  intro s hs
  have hmon : monitorHealth (some raw) cErr aErr now store archive
      = (match getStats (some raw) with
        | none => { result := none, notifs := [], store := store, archive := archive }
        | some stats =>
            let storageUsed := stats.storageInMB
            let step :
                List Notif × List Reservation × List ArchiveRecord :=
              if storageUsed > EMERGENCY_THRESHOLD then
                let c := cleanupOldReservations cErr now store
                let a := archiveReservations aErr now c.store archive
                ([⟨"EMERGENCY: Database Near Capacity",
                   healthMessage stats ++ " URGENT: Database is nearing free tier limit. Emergency cleanup initiated.",
                   true⟩] ++ c.notifs ++ a.notifs, a.store, a.archive)
              else if storageUsed > CRITICAL_THRESHOLD then
                ([⟨"CRITICAL: High Database Usage",
                   healthMessage stats ++ " Action Required: Please review and clean up unnecessary data.",
                   true⟩], store, archive)
              else if storageUsed > WARNING_THRESHOLD then
                ([⟨"WARNING: Database Usage Alert",
                   healthMessage stats ++ " Consider cleaning up old data to prevent reaching limits.",
                   false⟩], store, archive)
              else ([], store, archive)
            { result := some
                { stats := stats
                  warning := decide (storageUsed > WARNING_THRESHOLD)
                  critical := decide (storageUsed > CRITICAL_THRESHOLD)
                  emergency := decide (storageUsed > EMERGENCY_THRESHOLD) }
              notifs := step.1
              store := step.2.1
              archive := step.2.2 }) := rfl
  rw [hs] at hmon
  simp only at hmon
  by_cases he : s.storageInMB > EMERGENCY_THRESHOLD
  · have hc : s.storageInMB > CRITICAL_THRESHOLD := by
      unfold EMERGENCY_THRESHOLD at he
      unfold CRITICAL_THRESHOLD
      linarith
    have hw : s.storageInMB > WARNING_THRESHOLD := by
      unfold CRITICAL_THRESHOLD at hc
      unfold WARNING_THRESHOLD
      linarith
    simp only [if_pos he] at hmon
    have halerts : alertsOf
        ([(⟨"EMERGENCY: Database Near Capacity",
            healthMessage s ++ " URGENT: Database is nearing free tier limit. Emergency cleanup initiated.",
            true⟩ : Notif)]
          ++ (cleanupOldReservations cErr now store).notifs
          ++ (archiveReservations aErr now
                (cleanupOldReservations cErr now store).store archive).notifs)
        = [⟨"EMERGENCY: Database Near Capacity",
            healthMessage s ++ " URGENT: Database is nearing free tier limit. Emergency cleanup initiated.",
            true⟩] := by
      unfold alertsOf
      rw [List.filter_append, List.filter_append]
      rw [List.filter_eq_nil_iff.mpr (cleanup_notifs_not_alert cErr now store)]
      rw [List.filter_eq_nil_iff.mpr (archive_notifs_not_alert aErr now
        (cleanupOldReservations cErr now store).store archive)]
      simp [isAlert]
    have hresu : (monitorHealth (some raw) cErr aErr now store archive).result
        = some { stats := s
                 warning := decide (s.storageInMB > WARNING_THRESHOLD)
                 critical := decide (s.storageInMB > CRITICAL_THRESHOLD)
                 emergency := decide (s.storageInMB > EMERGENCY_THRESHOLD) } := by
      rw [hmon]
    have hnot : (monitorHealth (some raw) cErr aErr now store archive).notifs
        = [(⟨"EMERGENCY: Database Near Capacity",
            healthMessage s ++ " URGENT: Database is nearing free tier limit. Emergency cleanup initiated.",
            true⟩ : Notif)]
          ++ (cleanupOldReservations cErr now store).notifs
          ++ (archiveReservations aErr now
                (cleanupOldReservations cErr now store).store archive).notifs := by
      rw [hmon]
    have hsto : (monitorHealth (some raw) cErr aErr now store archive).store
        = (archiveReservations aErr now
            (cleanupOldReservations cErr now store).store archive).store := by
      rw [hmon]
    have harc : (monitorHealth (some raw) cErr aErr now store archive).archive
        = (archiveReservations aErr now
            (cleanupOldReservations cErr now store).store archive).archive := by
      rw [hmon]
    refine ⟨hresu, ?_, ?_, ?_, ?_, ?_⟩
    · rw [hnot, halerts]
      simp
    · intro habs
      exact absurd hw (not_lt.mpr habs)
    · intro _
      exact ⟨by rw [hnot, halerts]; simp, hsto, harc⟩
    · intro _ habs
      exact absurd he (not_lt.mpr habs)
    · intro _ habs
      exact absurd hc (not_lt.mpr habs)
  · by_cases hc : s.storageInMB > CRITICAL_THRESHOLD
    · have hw : s.storageInMB > WARNING_THRESHOLD := by
        unfold CRITICAL_THRESHOLD at hc
        unfold WARNING_THRESHOLD
        linarith
      simp only [if_neg he, if_pos hc] at hmon
      have hresu : (monitorHealth (some raw) cErr aErr now store archive).result
          = some { stats := s
                   warning := decide (s.storageInMB > WARNING_THRESHOLD)
                   critical := decide (s.storageInMB > CRITICAL_THRESHOLD)
                   emergency := decide (s.storageInMB > EMERGENCY_THRESHOLD) } := by
        rw [hmon]
      have hnot : (monitorHealth (some raw) cErr aErr now store archive).notifs
          = [(⟨"CRITICAL: High Database Usage",
              healthMessage s ++ " Action Required: Please review and clean up unnecessary data.",
              true⟩ : Notif)] := by
        rw [hmon]
      have hsto : (monitorHealth (some raw) cErr aErr now store archive).store
          = store := by
        rw [hmon]
      have harc : (monitorHealth (some raw) cErr aErr now store archive).archive
          = archive := by
        rw [hmon]
      refine ⟨hresu, ?_, ?_, ?_, ?_, ?_⟩
      · rw [hnot]
        simp [alertsOf, isAlert]
      · intro habs
        exact absurd hw (not_lt.mpr habs)
      · intro habs
        exact absurd habs he
      · intro _ _
        exact ⟨by rw [hnot]; simp [alertsOf, isAlert], hsto, harc⟩
      · intro _ habs
        exact absurd hc (not_lt.mpr habs)
    · by_cases hw : s.storageInMB > WARNING_THRESHOLD
      · simp only [if_neg he, if_neg hc, if_pos hw] at hmon
        have hresu : (monitorHealth (some raw) cErr aErr now store archive).result
            = some { stats := s
                     warning := decide (s.storageInMB > WARNING_THRESHOLD)
                     critical := decide (s.storageInMB > CRITICAL_THRESHOLD)
                     emergency := decide (s.storageInMB > EMERGENCY_THRESHOLD) } := by
          rw [hmon]
        have hnot : (monitorHealth (some raw) cErr aErr now store archive).notifs
            = [(⟨"WARNING: Database Usage Alert",
                healthMessage s ++ " Consider cleaning up old data to prevent reaching limits.",
                false⟩ : Notif)] := by
          rw [hmon]
        have hsto : (monitorHealth (some raw) cErr aErr now store archive).store
            = store := by
          rw [hmon]
        have harc : (monitorHealth (some raw) cErr aErr now store archive).archive
            = archive := by
          rw [hmon]
        refine ⟨hresu, ?_, ?_, ?_, ?_, ?_⟩
        · rw [hnot]
          simp [alertsOf, isAlert]
        · intro habs
          exact absurd hw (not_lt.mpr habs)
        · intro habs
          exact absurd habs he
        · intro habs _
          exact absurd habs hc
        · intro _ _
          exact ⟨by rw [hnot]; simp [alertsOf, isAlert], hsto, harc⟩
      · simp only [if_neg he, if_neg hc, if_neg hw] at hmon
        have hresu : (monitorHealth (some raw) cErr aErr now store archive).result
            = some { stats := s
                     warning := decide (s.storageInMB > WARNING_THRESHOLD)
                     critical := decide (s.storageInMB > CRITICAL_THRESHOLD)
                     emergency := decide (s.storageInMB > EMERGENCY_THRESHOLD) } := by
          rw [hmon]
        have hnot : (monitorHealth (some raw) cErr aErr now store archive).notifs
            = [] := by
          rw [hmon]
        refine ⟨hresu, ?_, ?_, ?_, ?_, ?_⟩
        · rw [hnot]
          simp [alertsOf]
        · intro _
          exact hnot
        · intro habs
          exact absurd habs he
        · intro habs _
          exact absurd habs hc
        · intro habs _
          exact absurd habs hw


/-- Witness for C3: at 100 MB of storage no notification is sent. -/
theorem monitorHealth_spec_witness :
    (monitorHealth (some ⟨0, 100 * 1024 * 1024, 0⟩) none none 0 [] []).notifs = [] :=
  ((monitorHealth_spec ⟨0, 100 * 1024 * 1024, 0⟩ none none 0 [] []).2.2 _ rfl).2.2.1
    (by norm_num [getStats, toFixedQ, roundHalfUp, WARNING_THRESHOLD])

end XnDoughs
